import Mathlib

/-!
Verification of the complaint finalization and numbering pipeline of the
mla-voice-saas repository.  The Python sources under src/agent are shallowly
embedded: pure computations become Lean functions, the HTTP calls made by
save_complaint_to_db and log_call are modelled by an explicit environment of
responses (an Except value models a call that raises), and datetime.now() is
modelled by explicit timestamp fields, one per call site in the source.
-/

set_option maxHeartbeats 1000000

namespace MlaVoice

/-! ### Python string primitives (ASCII model)

The sources use str.lower, str.strip, str.upper, slicing and f-string
formatting.  These are embedded character-wise; case conversion is modelled
on the ASCII range (the Tamil phrases appearing in the issue taxonomy have
no case and are fixed points of Python str.lower as well). -/

/-- Embedding of Python str.lower on one character (ASCII range). -/
def pyLowerChar (c : Char) : Char :=
  if 65 ≤ c.toNat ∧ c.toNat ≤ 90 then Char.ofNat (c.toNat + 32) else c

/-- Embedding of Python str.upper on one character (ASCII range). -/
def pyUpperChar (c : Char) : Char :=
  if 97 ≤ c.toNat ∧ c.toNat ≤ 122 then Char.ofNat (c.toNat - 32) else c

/-- Characters removed by Python str.strip with no argument:
space and the control characters \t, \n, \x0b, \x0c, \r. -/
def pyIsSpace (c : Char) : Bool := c.toNat = 32 ∨ (9 ≤ c.toNat ∧ c.toNat ≤ 13)

/-- Embedding of Python str.lower. -/
def pyLower (s : String) : String := String.mk (s.data.map pyLowerChar)

/-- Embedding of Python str.upper. -/
def pyUpper (s : String) : String := String.mk (s.data.map pyUpperChar)

/-- Embedding of Python str.strip (no argument form). -/
def pyStrip (s : String) : String :=
  String.mk (((s.data.dropWhile pyIsSpace).reverse.dropWhile pyIsSpace).reverse)

/-- Embedding of the Python slice s[:n]. -/
def pyTake (n : Nat) (s : String) : String := String.mk (s.data.take n)

/-- Embedding of the Python slice s[n:]. -/
def pyDrop (n : Nat) (s : String) : String := String.mk (s.data.drop n)

/-- Leading-segment test on character lists. -/
def leadsWith : List Char → List Char → Bool
  | [], _ => true
  | _ :: _, [] => false
  | a :: xs, b :: ys => a == b && leadsWith xs ys

/-- Embedding of Python str.startswith. -/
def pyStartsWith (s t : String) : Bool := leadsWith t.data s.data

/-! ### Decimal formatting

Embedding of Python %-style and f-string decimal formatting of nonnegative
integers.  The digit list is produced with an explicit fuel argument so that
the definition is structural and evaluates inside the kernel. -/

/-- The decimal digit character of a digit value (values above 9 cannot
arise from the % 10 computations feeding this function). -/
def digitChar (d : Nat) : Char :=
  match d with
  | 0 => '0' | 1 => '1' | 2 => '2' | 3 => '3' | 4 => '4'
  | 5 => '5' | 6 => '6' | 7 => '7' | 8 => '8' | _ => '9'

/-- Least-significant-first decimal digits of n, with fuel. -/
def natDigitsRevAux : Nat → Nat → List Char
  | 0, _ => []
  | fuel + 1, n =>
    if n < 10 then [digitChar n]
    else digitChar (n % 10) :: natDigitsRevAux fuel (n / 10)

/-- Decimal digit characters of n, most significant first (Python str(n)
for a nonnegative n, as produced by an f-string field with no format spec). -/
def natDecimal (n : Nat) : List Char := (natDigitsRevAux (n + 1) n).reverse

/-- Python f-string formatting with a 0w d format spec: decimal digits of n,
left padded with zeros to width w. -/
def fmtPad (w n : Nat) : String :=
  String.mk (List.replicate (w - (natDecimal n).length) '0' ++ natDecimal n)

/-- Python str(n) as a String. -/
def natStr (n : Nat) : String := String.mk (natDecimal n)

/-! ### Issue taxonomy — src/agent/complaint_tools.py lines 65 to 95 -/

/-- ISSUE_TYPE_MAP from src/agent/complaint_tools.py: Tamil phrases and
English variations, mapped to the canonical database categories. -/
def ISSUE_TYPE_MAP : List (String × String) :=
  [("சாலை", "road"),
   ("தண்ணீர்", "water"),
   ("மின்சாரம்", "electricity"),
   ("வடிகால்", "drainage"),
   ("குப்பை", "garbage"),
   ("சுகாதாரம்", "garbage"),
   ("தெரு விளக்கு", "streetlight"),
   ("விளக்கு", "streetlight"),
   ("road", "road"),
   ("roads", "road"),
   ("pothole", "road"),
   ("water", "water"),
   ("electricity", "electricity"),
   ("power", "electricity"),
   ("drainage", "drainage"),
   ("sewage", "drainage"),
   ("garbage", "garbage"),
   ("trash", "garbage"),
   ("streetlight", "streetlight"),
   ("street light", "streetlight"),
   ("light", "streetlight")]

/-- normalize_issue_type from src/agent/complaint_tools.py: lower, strip,
then look up in ISSUE_TYPE_MAP with default category "other". -/
def normalize_issue_type (issue : String) : String :=
  (ISSUE_TYPE_MAP.lookup (pyStrip (pyLower issue))).getD "other"

/-- The seven canonical database categories for issue_type. -/
def canonicalCategories : List String :=
  ["road", "water", "electricity", "drainage", "garbage", "streetlight", "other"]

/-! ### Timestamps

Each datetime.now() call site in complaint_tools.py receives its own field
in the environment, so that distinct call sites may observe distinct
times. -/

/-- A wall-clock reading, as the fields of a Python datetime. -/
structure PyDateTime where
  year : Nat
  month : Nat
  day : Nat
  hour : Nat
  minute : Nat
  second : Nat
deriving DecidableEq, Repr

/-- strftime with format %Y%m%d%H%M%S (complaint_tools.py line 135). -/
def strftimeYmdHMS (t : PyDateTime) : String :=
  fmtPad 4 t.year ++ fmtPad 2 t.month ++ fmtPad 2 t.day ++
    fmtPad 2 t.hour ++ fmtPad 2 t.minute ++ fmtPad 2 t.second

/-- strftime with format %H%M%S (complaint_tools.py lines 146, 202, 207). -/
def strftimeHMS (t : PyDateTime) : String :=
  fmtPad 2 t.hour ++ fmtPad 2 t.minute ++ fmtPad 2 t.second

/-- datetime.isoformat, date and time part (log_call, line 255). -/
def pyIsoformat (t : PyDateTime) : String :=
  fmtPad 4 t.year ++ "-" ++ fmtPad 2 t.month ++ "-" ++ fmtPad 2 t.day ++ "T" ++
    fmtPad 2 t.hour ++ ":" ++ fmtPad 2 t.minute ++ ":" ++ fmtPad 2 t.second

/-! ### Supabase configuration — complaint_tools.py lines 24 to 32 -/

/-- The two environment variables read at module load. A missing variable is
none; Python truthiness also treats an empty string as unset. -/
structure SupabaseConfig where
  SUPABASE_URL : Option String
  SUPABASE_KEY : Option String

/-- The guard not SUPABASE_URL or not SUPABASE_KEY, negated: both variables
are present and nonempty. -/
def configured (cfg : SupabaseConfig) : Bool :=
  cfg.SUPABASE_URL.getD "" ≠ "" && cfg.SUPABASE_KEY.getD "" ≠ ""

/-! ### save_complaint_to_db — complaint_tools.py lines 101 to 208 -/

/-- One row of the tenants table as consumed by save_complaint_to_db:
tenant["id"] and tenant.get("constituency", "RAS"). -/
structure TenantRow where
  id : String
  constituency : Option String
deriving DecidableEq, Repr

/-- The arguments of save_complaint_to_db, with the source defaults. -/
structure SaveArgs where
  citizen_name : String
  citizen_phone : String
  issue_type : String
  description : String
  location : String
  ward : String := ""
  landmark : String := ""
  transcript : String := ""
  call_duration_seconds : Int := 0
  audio_url : String := ""
deriving Repr

/-- The responses the three HTTP calls of save_complaint_to_db would
observe; an error value models the call raising an exception (carrying
str(e)), and the timestamp fields give the value of datetime.now() at each
call site of the source (lines 135, 146, 154, 202, 207). -/
structure SaveEnv where
  tenantResp : Except String (Nat × List TenantRow)
  countResp : Except String (Nat × Nat)
  insertResp : Except String (Nat × List String × String)
  nowLocal : PyDateTime
  nowNoTenant : PyDateTime
  nowYear : PyDateTime
  nowPostFail : PyDateTime
  nowExc : PyDateTime

/-- The complaint_data dict built in Step 5 of save_complaint_to_db; the
fields stored as None are Option values. -/
structure ComplaintRecord where
  tenant_id : String
  complaint_number : String
  citizen_name : String
  citizen_phone : String
  issue_type : String
  description : String
  location : String
  landmark : Option String
  transcript : Option String
  call_duration_seconds : Option Int
  audio_url : Option String
  status : String
deriving DecidableEq, Repr

/-- The dict returned by save_complaint_to_db. Keys absent from a branch of
the source are none or false here: complaint_id and error are present only
in some branches, and localFlag records the presence of "local": True. -/
structure SaveOutcome where
  success : Bool
  complaint_number : String
  complaint_id : Option String := none
  error : Option String := none
  localFlag : Bool := false
deriving DecidableEq, Repr

/-- Observable I/O of one save_complaint_to_db run: the URLs of the HTTP
requests issued (in order), and the complaint_data record carried by the
POST when one was attempted. -/
structure SaveTrace where
  requests : List String
  posted : Option ComplaintRecord := none
deriving DecidableEq, Repr

/-- The complaint number of Step 2 (complaint_tools.py line 161):
f-string of the constituency code, the year and the zero-padded count. -/
def complaintNumber (code : String) (year count : Nat) : String :=
  code ++ "-" ++ natStr year ++ "-" ++ fmtPad 4 count

/-- Embedding of save_complaint_to_db (complaint_tools.py lines 101 to 208).
The control flow follows the source: the unconfigured guard, the tenant
lookup with its fallback, the count query, record construction and the
insert, with every except-path falling into the RC + %H%M%S fallback that
is still reported as success. -/
def save_complaint_to_db (cfg : SupabaseConfig) (env : SaveEnv) (a : SaveArgs) :
    SaveOutcome × SaveTrace :=
  if ¬ configured cfg then
    ({ success := true, complaint_number := "RC" ++ strftimeYmdHMS env.nowLocal,
       complaint_id := some "", localFlag := true },
     { requests := [] })
  else
    let url := cfg.SUPABASE_URL.getD ""
    let tenantUrl := url ++ "/rest/v1/tenants?is_active=eq.true&limit=1"
    match env.tenantResp with
    | .error msg =>
      ({ success := true, complaint_number := "RC" ++ strftimeHMS env.nowExc,
         error := some msg },
       { requests := [tenantUrl] })
    | .ok (tstatus, tbody) =>
      match tbody with
      | [] =>
        ({ success := true, complaint_number := "RC" ++ strftimeHMS env.nowNoTenant,
           localFlag := true },
         { requests := [tenantUrl] })
      | tenant :: _ =>
        if tstatus ≠ 200 then
          ({ success := true, complaint_number := "RC" ++ strftimeHMS env.nowNoTenant,
             localFlag := true },
           { requests := [tenantUrl] })
        else
          let tenant_id := tenant.id
          let code := pyUpper (pyTake 3 (tenant.constituency.getD "RAS"))
          let year := env.nowYear.year
          let countUrl := url ++ "/rest/v1/complaints?tenant_id=eq." ++ tenant_id ++
            "&created_at=gte." ++ natStr year ++ "-01-01&select=id"
          match env.countResp with
          | .error msg =>
            ({ success := true, complaint_number := "RC" ++ strftimeHMS env.nowExc,
               error := some msg },
             { requests := [tenantUrl, countUrl] })
          | .ok (cstatus, rows) =>
            let count := if cstatus = 200 then rows + 1 else 1
            let number := complaintNumber code year count
            let full_location :=
              if a.ward ≠ "" then "Ward " ++ a.ward ++ ", " ++ a.location else a.location
            let record : ComplaintRecord :=
              { tenant_id := tenant_id,
                complaint_number := number,
                citizen_name := a.citizen_name,
                citizen_phone := a.citizen_phone,
                issue_type := normalize_issue_type a.issue_type,
                description := a.description,
                location := full_location,
                landmark := if a.landmark ≠ "" then some a.landmark else none,
                transcript := if a.transcript ≠ "" then some a.transcript else none,
                call_duration_seconds :=
                  if a.call_duration_seconds > 0 then some a.call_duration_seconds else none,
                audio_url := if a.audio_url ≠ "" then some a.audio_url else none,
                status := "new" }
            let postUrl := url ++ "/rest/v1/complaints"
            match env.insertResp with
            | .error msg =>
              ({ success := true, complaint_number := "RC" ++ strftimeHMS env.nowExc,
                 error := some msg },
               { requests := [tenantUrl, countUrl, postUrl], posted := some record })
            | .ok (istatus, ids, text) =>
              if istatus = 200 ∨ istatus = 201 then
                ({ success := true, complaint_number := number,
                   complaint_id := some (match ids with | [] => "" | i :: _ => i) },
                 { requests := [tenantUrl, countUrl, postUrl], posted := some record })
              else
                ({ success := true, complaint_number := "RC" ++ strftimeHMS env.nowPostFail,
                   error := some text },
                 { requests := [tenantUrl, countUrl, postUrl], posted := some record })

/-! ### log_call — complaint_tools.py lines 214 to 265 -/

/-- The arguments of log_call, with the source defaults. -/
structure LogArgs where
  caller_phone : String
  called_number : String
  call_status : String := "completed"
  duration_seconds : Int := 0
  complaint_id : Option String := none
  livekit_room_id : Option String := none

/-- Responses the HTTP calls of log_call would observe, and the
datetime.now() reading used for started_at. -/
structure LogEnv where
  tenantResp : Except String (Nat × List String)
  insertResp : Except String Nat
  now : PyDateTime

/-- The call_data dict built by log_call. -/
structure CallLogRecord where
  tenant_id : Option String
  caller_phone : String
  called_number : String
  call_status : String
  duration_seconds : Option Int
  complaint_id : Option String
  livekit_room_id : Option String
  started_at : String
deriving DecidableEq, Repr

/-- The dict returned by log_call. -/
structure LogOutcome where
  success : Bool
  error : Option String := none
deriving DecidableEq, Repr

/-- Observable I/O of one log_call run. -/
structure LogTrace where
  requests : List String
  posted : Option CallLogRecord := none
deriving DecidableEq, Repr

/-- Python str.replace("+", "%2B") (complaint_tools.py line 241). -/
def encodePlus (s : String) : String :=
  String.mk (s.data.flatMap (fun c => if c = '+' then ['%', '2', 'B'] else [c]))

/-- Embedding of log_call (complaint_tools.py lines 214 to 265): when
unconfigured it fails immediately; otherwise it resolves the tenant by the
called number when one is given, builds the call_data record and posts it,
reporting success exactly when the POST status is 200 or 201. -/
def log_call (cfg : SupabaseConfig) (env : LogEnv) (a : LogArgs) :
    LogOutcome × LogTrace :=
  if ¬ configured cfg then
    ({ success := false, error := some "Supabase not configured" }, { requests := [] })
  else
    let url := cfg.SUPABASE_URL.getD ""
    let tenantStep : Except String (Option String × List String) :=
      if a.called_number ≠ "" then
        let tUrl := url ++ "/rest/v1/tenants?phone_number=eq." ++
          encodePlus a.called_number ++ "&select=id"
        match env.tenantResp with
        | .error msg => .error msg
        | .ok (tstatus, ids) =>
          .ok (if tstatus = 200 then
                 (match ids with | [] => none | i :: _ => some i)
               else none,
               [tUrl])
      else .ok (none, [])
    match tenantStep with
    | .error msg => ({ success := false, error := some msg }, { requests := [] })
    | .ok (tenant_id, reqs) =>
      let record : CallLogRecord :=
        { tenant_id := tenant_id,
          caller_phone := a.caller_phone,
          called_number := a.called_number,
          call_status := a.call_status,
          duration_seconds := if a.duration_seconds > 0 then some a.duration_seconds else none,
          complaint_id :=
            match a.complaint_id with
            | some s => if s ≠ "" then some s else none
            | none => none,
          livekit_room_id := a.livekit_room_id,
          started_at := pyIsoformat env.now }
      let postUrl := url ++ "/rest/v1/call_logs"
      match env.insertResp with
      | .error msg => ({ success := false, error := some msg },
                       { requests := reqs ++ [postUrl], posted := some record })
      | .ok istatus =>
        ({ success := istatus = 200 ∨ istatus = 201 },
         { requests := reqs ++ [postUrl], posted := some record })

/-! ### Caller phone resolution — src/agent/agent_v3.py lines 245 to 274

Step 5 of ComplaintAgent.on_enter: the phone number is first sought by the
regular expression +91 followed by ten digits over the room name, and only
if that leaves the sentinel unknown is the first remote participant whose
identity starts with sip_ consulted, that four-character tag stripped. -/

/-- Attempt of the pattern +91 followed by exactly ten digits at the head of
a character list (a match leaves trailing characters unconstrained). -/
def phoneMatchAt (l : List Char) : Option String :=
  match l with
  | '+' :: '9' :: '1' :: rest =>
    if (rest.take 10).length = 10 ∧ (rest.take 10).all Char.isDigit then
      some (String.mk ('+' :: '9' :: '1' :: rest.take 10))
    else none
  | _ => none

/-- Leftmost match of the pattern, as found by re.search. -/
def findPhone91Aux : List Char → Option String
  | [] => none
  | c :: rest =>
    match phoneMatchAt (c :: rest) with
    | some m => some m
    | none => findPhone91Aux rest

/-- re.search of +91 followed by ten digits over a string, returning
match.group() of the leftmost match. -/
def findPhone91 (s : String) : Option String := findPhone91Aux s.data

/-- Embedding of Step 5 of ComplaintAgent.on_enter (agent_v3.py lines 245
to 274).  roomName is the global ROOM_NAME (none when unset), and room the
identities of the remote participants of the global ROOM (none when ROOM is
unset). -/
def resolveCallerPhone (roomName : Option String) (room : Option (List String)) : String :=
  let afterName :=
    match roomName with
    | some rn =>
      if rn ≠ "" then
        match findPhone91 rn with
        | some m => m
        | none => "unknown"
      else "unknown"
    | none => "unknown"
  if afterName = "unknown" then
    match room with
    | some ids =>
      match ids.find? (fun i => pyStartsWith i "sip_") with
      | some i => pyDrop 4 i
      | none => "unknown"
    | none => "unknown"
  else afterName

/-- The resolution strategy in the order the specification states it
(section 4.5): the SIP participant identity first, the room-name pattern
second, the sentinel last.  Kept separate from resolveCallerPhone, which
embeds the source, to compare the two. -/
def specOrderResolve (roomName : Option String) (room : Option (List String)) : String :=
  let fromSip :=
    match room with
    | some ids =>
      match ids.find? (fun i => pyStartsWith i "sip_") with
      | some i => some (pyDrop 4 i)
      | none => none
    | none => none
  match fromSip with
  | some p => p
  | none =>
    match roomName with
    | some rn =>
      match findPhone91 rn with
      | some m => m
      | none => "unknown"
    | none => "unknown"

/-! ### Slot collection tasks — src/agent/agent_v3.py lines 76 to 201

The per-slot result dataclasses are embedded from the source.  The task
state machine itself (AgentTask.complete) is provided by the livekit
framework, whose code is not part of this repository; it is modelled from
the specification. -/

/-- CollectedName dataclass (agent_v3.py line 76). -/
structure CollectedName where
  name : String
deriving DecidableEq, Repr

/-- CollectedIssue dataclass (agent_v3.py line 80). -/
structure CollectedIssue where
  issue : String
  description : String
deriving DecidableEq, Repr

/-- CollectedLocation dataclass (agent_v3.py line 85). -/
structure CollectedLocation where
  location : String
  ward : String
deriving DecidableEq, Repr

/-- Modelled from the spec: the state space of a SlotCollectionTask
(section 4.1 of the specification; the implementation lives in the livekit
AgentTask base class, which is not part of this repository).
States: Created, AwaitingAnswer, Completed (terminal). -/
inductive TaskState (α : Type) where
  | created : TaskState α
  | awaitingAnswer : TaskState α
  | completed : α → TaskState α
deriving DecidableEq, Repr

/-- Modelled from the spec: the InvalidState contract-violation condition
raised by a second completion (specification sections 4.1 and 7). -/
inductive TaskError where
  | invalidState : TaskError
deriving DecidableEq, Repr

/-- Modelled from the spec: complete(result) transitions the task to the
terminal Completed state exactly once; invoking it on an already Completed
task fails with InvalidState (specification section 4.1; the implementation
is the livekit AgentTask.complete, not part of this repository). -/
def TaskState.complete (s : TaskState α) (r : α) : Except TaskError (TaskState α) :=
  match s with
  | .completed _ => .error .invalidState
  | _ => .ok (.completed r)

/-- Running a sequence of accepted structured answers against a task: each
accepted answer triggers the completion call of its handler, as got_name
does (agent_v3.py lines 115 to 123). -/
def runAnswers (s : TaskState α) : List α → Except TaskError (TaskState α)
  | [] => .ok s
  | r :: rest =>
    match s.complete r with
    | .ok s2 => runAnswers s2 rest
    | .error e => .error e

/-! ### Concurrent allocation schedule — for the numbering pipeline

Two save_complaint_to_db invocations for the same tenant, interleaved so
that both count queries complete before either insert: both observe the
same complaint count in their environments. -/

/-- The pair of complaint numbers returned by two concurrent
save_complaint_to_db runs under the schedule in which both Step 2 count
reads happen before either Step 6 insert: both environments report the same
existing-complaint count c. -/
def twoConcurrentSaves (cfg : SupabaseConfig) (tenant : TenantRow) (c : Nat)
    (now : PyDateTime) (a1 a2 : SaveArgs) : String × String :=
  let env : SaveEnv :=
    { tenantResp := .ok (200, [tenant]),
      countResp := .ok (200, c),
      insertResp := .ok (201, ["fresh-id"], ""),
      nowLocal := now, nowNoTenant := now, nowYear := now,
      nowPostFail := now, nowExc := now }
  ((save_complaint_to_db cfg env a1).1.complaint_number,
   (save_complaint_to_db cfg env a2).1.complaint_number)

/-! ### Character classes and the reference-number shape -/

/-- Decimal-digit character test (codepoints 48 to 57). -/
def isDigitCh (c : Char) : Bool := 48 ≤ c.toNat && c.toNat ≤ 57

/-- Uppercase ASCII letter test (codepoints 65 to 90). -/
def isUpperAlphaCh (c : Char) : Bool := 65 ≤ c.toNat && c.toNat ≤ 90

/-- ASCII letter test. -/
def isAsciiAlphaCh (c : Char) : Bool :=
  (65 ≤ c.toNat && c.toNat ≤ 90) || (97 ≤ c.toNat && c.toNat ≤ 122)

/-- Executable check of the reference-number shape from the specification:
three uppercase letters, a dash, four decimal digits, a dash, four decimal
digits. -/
def matchesRefPattern (s : String) : Bool :=
  match s.data with
  | [a, b, c, g1, d1, d2, d3, d4, g2, e1, e2, e3, e4] =>
    isUpperAlphaCh a && isUpperAlphaCh b && isUpperAlphaCh c &&
    (g1 == '-') && (g2 == '-') &&
    isDigitCh d1 && isDigitCh d2 && isDigitCh d3 && isDigitCh d4 &&
    isDigitCh e1 && isDigitCh e2 && isDigitCh e3 && isDigitCh e4
  | _ => false

/-! ### Concrete fixtures used by the witness theorems -/

/-- A configured credential pair. -/
def wCfg : SupabaseConfig := ⟨some "https://db.example.supabase.co", some "service-key"⟩

/-- An unconfigured credential pair (both environment variables unset). -/
def wCfgNone : SupabaseConfig := ⟨none, none⟩

/-- A sample active tenant row. -/
def wTenant : TenantRow := ⟨"tenant-1", some "Rasipuram"⟩

/-- A sample wall-clock reading. -/
def wNow : PyDateTime := ⟨2025, 3, 4, 5, 6, 7⟩

/-- A fully successful persistence environment: active tenant found, five
existing complaints counted this year, insert accepted with status 201. -/
def wEnvOk : SaveEnv :=
  { tenantResp := .ok (200, [wTenant]),
    countResp := .ok (200, 5),
    insertResp := .ok (201, ["row-1"], ""),
    nowLocal := wNow, nowNoTenant := wNow, nowYear := wNow,
    nowPostFail := wNow, nowExc := wNow }

/-- An environment in which the tenant query returns an empty body, with all
datetime.now() readings equal to the given time. -/
def c6envAt (t : PyDateTime) : SaveEnv :=
  { tenantResp := .ok (200, []),
    countResp := .ok (200, 0),
    insertResp := .ok (200, [], ""),
    nowLocal := t, nowNoTenant := t, nowYear := t, nowPostFail := t, nowExc := t }

/-- Sample collected complaint data (the end-to-end scenario of the
specification, with a ward). -/
def wArgs : SaveArgs :=
  { citizen_name := "Lakshmi", citizen_phone := "+919876543210",
    issue_type := "water", description := "no water supply for 3 days",
    location := "Anna Nagar 4th Street", ward := "12" }

/-- A second set of collected complaint data, for the concurrent run. -/
def wArgsB : SaveArgs :=
  { citizen_name := "Muthu", citizen_phone := "+918888888888",
    issue_type := "pothole", description := "pothole on main road",
    location := "Main Road" }

/-- The complaint record the fully successful run posts for wArgs. -/
def wRec : ComplaintRecord :=
  { tenant_id := "tenant-1", complaint_number := "RAS-2025-0006",
    citizen_name := "Lakshmi", citizen_phone := "+919876543210",
    issue_type := "water", description := "no water supply for 3 days",
    location := "Ward 12, Anna Nagar 4th Street",
    landmark := none, transcript := none, call_duration_seconds := none,
    audio_url := none, status := "new" }

/-- A call-log environment. -/
def wLogEnv : LogEnv := { tenantResp := .ok (200, []), insertResp := .ok 201, now := wNow }

/-- Call-log arguments. -/
def wLogArgs : LogArgs :=
  { caller_phone := "+919876543210", called_number := "+914427220000" }

end MlaVoice

namespace MlaVoice

/-! ## Helper lemmas -/

theorem charToNat_ofNat {n : Nat} (h : n < 55296) : (Char.ofNat n).toNat = n := by
  unfold Char.ofNat
  rw [dif_pos (Or.inl h)]
  rfl

theorem String_data_inj {a b : String} (h : a.data = b.data) : a = b := by
  cases a
  cases b
  exact congrArg String.mk h

theorem head?_dropWhile_false {p : Char → Bool} {l : List Char} {c : Char}
    (h : (l.dropWhile p).head? = some c) : p c = false := by
  induction l with
  | nil => simp at h
  | cons a t ih =>
    rw [List.dropWhile_cons] at h
    split at h
    · exact ih h
    · simp at h; subst h; simp_all

theorem dropWhile_eq_self_of_head {p : Char → Bool} {l : List Char}
    (h : ∀ c, l.head? = some c → p c = false) : l.dropWhile p = l := by
  cases l with
  | nil => simp
  | cons a t => rw [List.dropWhile_cons]; simp [h a rfl]

theorem dropWhile_dropWhile_self (p : Char → Bool) (l : List Char) :
    (l.dropWhile p).dropWhile p = l.dropWhile p := by
  apply dropWhile_eq_self_of_head
  intro c hc
  exact head?_dropWhile_false hc

theorem getLast?_dropWhile {p : Char → Bool} {l : List Char}
    (h : l.dropWhile p ≠ []) : (l.dropWhile p).getLast? = l.getLast? := by
  induction l with
  | nil => simp at h
  | cons a t ih =>
    rw [List.dropWhile_cons]
    rw [List.dropWhile_cons] at h
    split at h
    · rw [if_pos ‹_›, ih h]
      cases t with
      | nil => simp [List.dropWhile_nil] at h
      | cons b u => simp [List.getLast?_cons_cons]
    · rw [if_neg ‹_›]

/-- The both-ends whitespace strip on character lists is idempotent. -/
theorem stripCore_idem (p : Char → Bool) (l : List Char) :
    (((((l.dropWhile p).reverse.dropWhile p).reverse).dropWhile p).reverse.dropWhile p).reverse
      = ((l.dropWhile p).reverse.dropWhile p).reverse := by
  set l1 := l.dropWhile p with hl1
  set r := l1.reverse.dropWhile p with hr
  have hfront : r.reverse.dropWhile p = r.reverse := by
    apply dropWhile_eq_self_of_head
    intro c hc
    rw [List.head?_reverse] at hc
    have hrne : r ≠ [] := by
      intro he; rw [he] at hc; simp at hc
    rw [hr, getLast?_dropWhile (hr ▸ hrne)] at hc
    rw [List.getLast?_reverse] at hc
    exact head?_dropWhile_false (hl1 ▸ hc)
  rw [hfront, List.reverse_reverse, hr, dropWhile_dropWhile_self]

theorem pyStrip_pyStrip (s : String) : pyStrip (pyStrip s) = pyStrip s := by
  unfold pyStrip
  exact congrArg String.mk (stripCore_idem pyIsSpace s.data)

theorem pyLowerChar_toNat_of_upper {c : Char} (h1 : 65 ≤ c.toNat) (h2 : c.toNat ≤ 90) :
    (pyLowerChar c).toNat = c.toNat + 32 := by
  unfold pyLowerChar
  rw [if_pos ⟨h1, h2⟩]
  exact charToNat_ofNat (by omega)

theorem pyIsSpace_pyLowerChar (c : Char) : pyIsSpace (pyLowerChar c) = pyIsSpace c := by
  unfold pyLowerChar
  split
  · have h := charToNat_ofNat (n := c.toNat + 32) (by omega)
    simp only [pyIsSpace, decide_eq_decide]
    rw [h]
    omega
  · rfl

theorem pyLowerChar_of_not_upper {c : Char} (h : ¬(65 ≤ c.toNat ∧ c.toNat ≤ 90)) :
    pyLowerChar c = c := by
  unfold pyLowerChar
  rw [if_neg h]

theorem pyLowerChar_idem (c : Char) : pyLowerChar (pyLowerChar c) = pyLowerChar c := by
  by_cases h : 65 ≤ c.toNat ∧ c.toNat ≤ 90
  · have ht : (pyLowerChar c).toNat = c.toNat + 32 := pyLowerChar_toNat_of_upper h.1 h.2
    exact pyLowerChar_of_not_upper (by rw [ht]; omega)
  · rw [pyLowerChar_of_not_upper h, pyLowerChar_of_not_upper h]

theorem pyLower_pyLower (s : String) : pyLower (pyLower s) = pyLower s := by
  unfold pyLower
  refine congrArg String.mk ?_
  rw [List.map_map]
  exact List.map_congr_left fun c _ => pyLowerChar_idem c

theorem pyLower_pyStrip (s : String) : pyLower (pyStrip s) = pyStrip (pyLower s) := by
  unfold pyLower pyStrip
  refine congrArg String.mk ?_
  have hdw : ∀ l : List Char, (l.map pyLowerChar).dropWhile pyIsSpace
      = (l.dropWhile pyIsSpace).map pyLowerChar := by
    intro l
    rw [List.dropWhile_map]
    have hfun : (pyIsSpace ∘ pyLowerChar) = pyIsSpace :=
      funext fun c => pyIsSpace_pyLowerChar c
    rw [hfun]
  simp only [String.data]
  rw [hdw, ← List.map_reverse, hdw, ← List.map_reverse]

theorem lookup_val_mem {l : List (String × String)} {k v : String}
    (h : l.lookup k = some v) : v ∈ l.map Prod.snd := by
  induction l with
  | nil => simp [List.lookup] at h
  | cons p rest ih =>
    rw [List.lookup] at h
    split at h
    · simp at h; subst h; simp
    · have := ih h
      simp [this]

theorem normalize_issue_type_total (s : String) :
    normalize_issue_type s ∈ canonicalCategories := by
  unfold normalize_issue_type
  cases h : ISSUE_TYPE_MAP.lookup (pyStrip (pyLower s)) with
  | none => simp [canonicalCategories]
  | some v =>
    simp only [Option.getD_some]
    have hall : ∀ v ∈ ISSUE_TYPE_MAP.map Prod.snd, v ∈ canonicalCategories := by decide
    exact hall v (lookup_val_mem h)

theorem normalize_issue_type_idem (s : String) :
    normalize_issue_type (normalize_issue_type s) = normalize_issue_type s := by
  have h := normalize_issue_type_total s
  simp only [canonicalCategories, List.mem_cons, List.not_mem_nil, or_false] at h
  rcases h with h | h | h | h | h | h | h <;> rw [h] <;> decide

theorem normalize_issue_type_lower (s : String) :
    normalize_issue_type (pyLower s) = normalize_issue_type s := by
  unfold normalize_issue_type
  rw [pyLower_pyLower]

theorem normalize_issue_type_strip (s : String) :
    normalize_issue_type (pyStrip s) = normalize_issue_type s := by
  unfold normalize_issue_type
  rw [pyLower_pyStrip, pyStrip_pyStrip]

end MlaVoice

namespace MlaVoice

/-! ## Decimal formatting lemmas -/

theorem digitChar_isDigit (d : Nat) : isDigitCh (digitChar d) = true := by
  unfold digitChar
  split <;> decide

theorem digitChar_inj {a b : Nat} (ha : a < 10) (hb : b < 10)
    (h : digitChar a = digitChar b) : a = b := by
  interval_cases a <;> interval_cases b <;> simp_all <;> revert h <;> decide

theorem natDigitsRevAux_digits {fuel n : Nat} (h : n < fuel) :
    ∀ c ∈ natDigitsRevAux fuel n, isDigitCh c = true := by
  induction fuel generalizing n with
  | zero => omega
  | succ f ih =>
    intro c hc
    rw [natDigitsRevAux] at hc
    split at hc
    · simp at hc; subst hc; exact digitChar_isDigit n
    · rcases List.mem_cons.mp hc with hc | hc
      · subst hc; exact digitChar_isDigit (n % 10)
      · exact ih (by omega) c hc

theorem natDigitsRevAux_len_le {k fuel n : Nat} (h : n < fuel) (hk : n < 10 ^ (k + 1)) :
    (natDigitsRevAux fuel n).length ≤ k + 1 := by
  induction k generalizing fuel n with
  | zero =>
    obtain ⟨f, rfl⟩ : ∃ f, fuel = f + 1 := ⟨fuel - 1, by omega⟩
    rw [natDigitsRevAux, if_pos (by simpa using hk)]
    simp
  | succ k ih =>
    obtain ⟨f, rfl⟩ : ∃ f, fuel = f + 1 := ⟨fuel - 1, by omega⟩
    rw [natDigitsRevAux]
    split
    · simp
    · simp only [List.length_cons]
      have hd : n / 10 < f := by omega
      have hp : n / 10 < 10 ^ (k + 1) := by
        rw [pow_succ] at hk
        omega
      have := ih hd hp
      omega

theorem natDigitsRevAux_len_ge {k fuel n : Nat} (h : n < fuel) (hk : 10 ^ k ≤ n) :
    k + 1 ≤ (natDigitsRevAux fuel n).length := by
  induction k generalizing fuel n with
  | zero =>
    obtain ⟨f, rfl⟩ : ∃ f, fuel = f + 1 := ⟨fuel - 1, by omega⟩
    rw [natDigitsRevAux]
    split <;> simp
  | succ k ih =>
    obtain ⟨f, rfl⟩ : ∃ f, fuel = f + 1 := ⟨fuel - 1, by omega⟩
    have hn10 : 10 ≤ n := by
      have h1 : 10 ^ 1 ≤ 10 ^ (k + 1) := Nat.pow_le_pow_right (by omega) (by omega)
      calc (10 : Nat) = 10 ^ 1 := (pow_one 10).symm
      _ ≤ 10 ^ (k + 1) := h1
      _ ≤ n := hk
    rw [natDigitsRevAux]
    rw [if_neg (by omega)]
    simp only [List.length_cons]
    have hd : n / 10 < f := by omega
    have hp : 10 ^ k ≤ n / 10 := by
      rw [Nat.le_div_iff_mul_le (by omega)]
      calc 10 ^ k * 10 = 10 ^ (k + 1) := by ring
      _ ≤ n := hk
    have := ih hd hp
    omega

theorem natDecimal_digits {n : Nat} : ∀ c ∈ natDecimal n, isDigitCh c = true := by
  intro c hc
  rw [natDecimal, List.mem_reverse] at hc
  exact natDigitsRevAux_digits (by omega) c hc

theorem natDecimal_len_le {k n : Nat} (hk : n < 10 ^ (k + 1)) :
    (natDecimal n).length ≤ k + 1 := by
  rw [natDecimal, List.length_reverse]
  exact natDigitsRevAux_len_le (by omega) hk

theorem natDecimal_len_ge {k n : Nat} (hk : 10 ^ k ≤ n) :
    k + 1 ≤ (natDecimal n).length := by
  rw [natDecimal, List.length_reverse]
  exact natDigitsRevAux_len_ge (by omega) hk

theorem fmtPad_length {w n : Nat} (hw : 1 ≤ w) (h : n < 10 ^ w) :
    (fmtPad w n).data.length = w := by
  unfold fmtPad
  have hle : (natDecimal n).length ≤ w := by
    obtain ⟨k, rfl⟩ : ∃ k, w = k + 1 := ⟨w - 1, by omega⟩
    exact natDecimal_len_le h
  simp [List.length_append, List.length_replicate]
  omega

theorem fmtPad_digits {w n : Nat} : ∀ c ∈ (fmtPad w n).data, isDigitCh c = true := by
  intro c hc
  unfold fmtPad at hc
  simp only [List.mem_append] at hc
  rcases hc with hc | hc
  · have := List.eq_of_mem_replicate hc
    subst this; decide
  · exact natDecimal_digits c hc

theorem natStr_length_four {n : Nat} (h1 : 1000 ≤ n) (h2 : n < 10000) :
    (natStr n).data.length = 4 := by
  unfold natStr
  have hle : (natDecimal n).length ≤ 4 := natDecimal_len_le (k := 3) (by omega)
  have hge : 4 ≤ (natDecimal n).length := natDecimal_len_ge (k := 3) (by omega)
  simp
  omega

theorem fmtPad_two_eq {n : Nat} (h : n < 100) :
    fmtPad 2 n = String.mk [digitChar (n / 10), digitChar (n % 10)] := by
  by_cases h10 : n < 10
  · have hd : natDecimal n = [digitChar n] := by
      rw [natDecimal, natDigitsRevAux, if_pos h10, List.reverse_singleton]
    have h0 : n / 10 = 0 := by omega
    have hm : n % 10 = n := by omega
    rw [fmtPad, hd, h0, hm]
    rfl
  · have hd : natDecimal n = [digitChar (n / 10), digitChar (n % 10)] := by
      rw [natDecimal, natDigitsRevAux, if_neg (by omega)]
      obtain ⟨m, hm⟩ : ∃ m, n = m + 1 := ⟨n - 1, by omega⟩
      rw [hm]
      rw [natDigitsRevAux]
      rw [if_pos (by omega)]
      simp
    rw [fmtPad, hd]
    rfl

theorem fmtPad_two_inj {a b : Nat} (ha : a < 100) (hb : b < 100)
    (h : fmtPad 2 a = fmtPad 2 b) : a = b := by
  rw [fmtPad_two_eq ha, fmtPad_two_eq hb] at h
  have hl := congrArg String.data h
  simp only [String.data] at hl
  injection hl with h1 hl
  injection hl with h2 _
  have e1 : a / 10 = b / 10 := digitChar_inj (by omega) (by omega) h1
  have e2 : a % 10 = b % 10 := digitChar_inj (by omega) (by omega) h2
  omega

theorem strftimeHMS_inj {t1 t2 : PyDateTime}
    (h1 : t1.hour < 24) (h2 : t1.minute < 60) (h3 : t1.second < 60)
    (h4 : t2.hour < 24) (h5 : t2.minute < 60) (h6 : t2.second < 60)
    (h : strftimeHMS t1 = strftimeHMS t2) :
    t1.hour = t2.hour ∧ t1.minute = t2.minute ∧ t1.second = t2.second := by
  unfold strftimeHMS at h
  rw [fmtPad_two_eq (by omega), fmtPad_two_eq (by omega), fmtPad_two_eq (by omega),
      fmtPad_two_eq (by omega), fmtPad_two_eq (by omega), fmtPad_two_eq (by omega)] at h
  have hl := congrArg String.data h
  simp only [String.data_append, String.data, List.cons_append, List.nil_append] at hl
  injection hl with e1 hl
  injection hl with e2 hl
  injection hl with e3 hl
  injection hl with e4 hl
  injection hl with e5 hl
  injection hl with e6 hl
  refine ⟨?_, ?_, ?_⟩
  · have d1 := digitChar_inj (by omega) (by omega) e1
    have d2 := digitChar_inj (by omega) (by omega) e2
    omega
  · have d1 := digitChar_inj (by omega) (by omega) e3
    have d2 := digitChar_inj (by omega) (by omega) e4
    omega
  · have d1 := digitChar_inj (by omega) (by omega) e5
    have d2 := digitChar_inj (by omega) (by omega) e6
    omega

end MlaVoice

namespace MlaVoice

/-! ## save_complaint_to_db branch lemmas -/

theorem RC_append_ne (s : String) : ("RC" ++ s) ≠ "" := by
  intro h
  have hd := congrArg String.data h
  rw [String.data_append] at hd
  simp [show ("RC" : String).data = ['R', 'C'] from rfl] at hd

theorem RC_append_inj {a b : String} (h : ("RC" ++ a) = ("RC" ++ b)) : a = b := by
  have hd := congrArg String.data h
  rw [String.data_append, String.data_append] at hd
  simp only [show ("RC" : String).data = ['R', 'C'] from rfl] at hd
  injection hd with h1 hd
  injection hd with h2 hd
  exact String_data_inj hd

theorem complaintNumber_ne (code : String) (y c : Nat) :
    complaintNumber code y c ≠ "" := by
  intro h
  have hd := congrArg String.data h
  unfold complaintNumber at hd
  simp [String.data_append, show ("-" : String).data = ['-'] from rfl] at hd

theorem save_posted_fields {cfg : SupabaseConfig} {env : SaveEnv} {a : SaveArgs}
    {rec : ComplaintRecord}
    (h : (save_complaint_to_db cfg env a).2.posted = some rec) :
    rec.location = (if a.ward ≠ "" then "Ward " ++ a.ward ++ ", " ++ a.location else a.location) ∧
    rec.landmark = (if a.landmark ≠ "" then some a.landmark else none) ∧
    rec.transcript = (if a.transcript ≠ "" then some a.transcript else none) ∧
    rec.call_duration_seconds =
      (if a.call_duration_seconds > 0 then some a.call_duration_seconds else none) ∧
    rec.audio_url = (if a.audio_url ≠ "" then some a.audio_url else none) ∧
    rec.issue_type = normalize_issue_type a.issue_type ∧
    rec.citizen_name = a.citizen_name ∧
    rec.citizen_phone = a.citizen_phone ∧
    rec.description = a.description ∧
    rec.status = "new" := by
  unfold save_complaint_to_db at h
  by_cases hcfg : configured cfg = true
  case neg =>
    rw [if_pos (by simpa using hcfg)] at h
    simp at h
  case pos =>
    rw [if_neg (by simp [hcfg])] at h
    cases htr : env.tenantResp with
    | error msg => simp only [htr] at h; simp at h
    | ok pr =>
      obtain ⟨ts, tb⟩ := pr
      cases tb with
      | nil => simp only [htr] at h; simp at h
      | cons t rest =>
        simp only [htr] at h
        by_cases hts : ts ≠ 200
        · rw [if_pos hts] at h
          simp at h
        · rw [if_neg hts] at h
          cases hcr : env.countResp with
          | error msg => simp only [hcr] at h; simp at h
          | ok pr2 =>
            obtain ⟨cs, rows⟩ := pr2
            simp only [hcr] at h
            cases hir : env.insertResp with
            | error msg =>
              simp only [hir, Option.some.injEq] at h
              subst h
              exact ⟨rfl, rfl, rfl, rfl, rfl, rfl, rfl, rfl, rfl, rfl⟩
            | ok pr3 =>
              obtain ⟨istat, ids, text⟩ := pr3
              simp only [hir] at h
              by_cases hist : istat = 200 ∨ istat = 201
              · rw [if_pos hist] at h
                simp only [Option.some.injEq] at h
                subst h
                exact ⟨rfl, rfl, rfl, rfl, rfl, rfl, rfl, rfl, rfl, rfl⟩
              · rw [if_neg hist] at h
                simp only [Option.some.injEq] at h
                subst h
                exact ⟨rfl, rfl, rfl, rfl, rfl, rfl, rfl, rfl, rfl, rfl⟩

theorem save_happy_number {cfg : SupabaseConfig} {env : SaveEnv} {a : SaveArgs}
    {t : TenantRow} {rest : List TenantRow} {rows : Nat} {istat : Nat}
    {ids : List String} {text : String}
    (hcfg : configured cfg = true)
    (htr : env.tenantResp = .ok (200, t :: rest))
    (hcr : env.countResp = .ok (200, rows))
    (hir : env.insertResp = .ok (istat, ids, text))
    (hist : istat = 200 ∨ istat = 201) :
    (save_complaint_to_db cfg env a).1.complaint_number
      = complaintNumber (pyUpper (pyTake 3 (t.constituency.getD "RAS")))
          env.nowYear.year (rows + 1) ∧
    (save_complaint_to_db cfg env a).1.success = true := by
  unfold save_complaint_to_db
  rw [if_neg (by simp [hcfg])]
  simp only [htr]
  rw [if_neg (by omega)]
  simp only [hcr, if_pos rfl, hir]
  rw [if_pos hist]
  exact ⟨by simp, by trivial⟩

theorem save_noTenant {cfg : SupabaseConfig} {env : SaveEnv} {a : SaveArgs} {ts : Nat}
    (hcfg : configured cfg = true)
    (htr : env.tenantResp = .ok (ts, [])) :
    (save_complaint_to_db cfg env a).1.success = true ∧
    (save_complaint_to_db cfg env a).1.localFlag = true ∧
    (save_complaint_to_db cfg env a).1.complaint_number
      = "RC" ++ strftimeHMS env.nowNoTenant := by
  unfold save_complaint_to_db
  rw [if_neg (by simp [hcfg])]
  simp only [htr]
  exact ⟨by trivial, by trivial, by trivial⟩

theorem save_exception {cfg : SupabaseConfig} {env : SaveEnv} {a : SaveArgs} {msg : String}
    (hcfg : configured cfg = true)
    (htr : env.tenantResp = .error msg) :
    (save_complaint_to_db cfg env a).1.success = true ∧
    (save_complaint_to_db cfg env a).1.complaint_number
      = "RC" ++ strftimeHMS env.nowExc ∧
    (save_complaint_to_db cfg env a).1.error = some msg := by
  unfold save_complaint_to_db
  rw [if_neg (by simp [hcfg])]
  simp only [htr]
  exact ⟨by trivial, by trivial, by trivial⟩

theorem save_postFail {cfg : SupabaseConfig} {env : SaveEnv} {a : SaveArgs}
    {t : TenantRow} {rest : List TenantRow} {rows : Nat} {istat : Nat}
    {ids : List String} {text : String}
    (hcfg : configured cfg = true)
    (htr : env.tenantResp = .ok (200, t :: rest))
    (hcr : env.countResp = .ok (200, rows))
    (hir : env.insertResp = .ok (istat, ids, text))
    (hist : ¬(istat = 200 ∨ istat = 201)) :
    (save_complaint_to_db cfg env a).1.success = true ∧
    (save_complaint_to_db cfg env a).1.complaint_number
      = "RC" ++ strftimeHMS env.nowPostFail := by
  unfold save_complaint_to_db
  rw [if_neg (by simp [hcfg])]
  simp only [htr]
  rw [if_neg (by omega)]
  simp only [hcr, if_pos rfl, hir]
  rw [if_neg hist]
  exact ⟨by trivial, by trivial⟩

/-! ## Reference-pattern lemmas -/

theorem isUpperAlphaCh_pyUpperChar {c : Char} (h : isAsciiAlphaCh c = true) :
    isUpperAlphaCh (pyUpperChar c) = true := by
  simp only [isAsciiAlphaCh, Bool.or_eq_true, Bool.and_eq_true, decide_eq_true_eq] at h
  unfold pyUpperChar
  by_cases hl : 97 ≤ c.toNat ∧ c.toNat ≤ 122
  · rw [if_pos hl]
    have ht := charToNat_ofNat (n := c.toNat - 32) (by omega)
    simp only [isUpperAlphaCh, Bool.and_eq_true, decide_eq_true_eq, ht]
    omega
  · rw [if_neg hl]
    simp only [isUpperAlphaCh, Bool.and_eq_true, decide_eq_true_eq]
    omega

theorem list_len_four {l : List Char} (h : l.length = 4) :
    ∃ a b c d, l = [a, b, c, d] := by
  match l, h with
  | [a, b, c, d], _ => exact ⟨a, b, c, d, rfl⟩

theorem matchesRefPattern_complaintNumber {code : String} {y n : Nat}
    {a b c : Char}
    (hcode : code.data = [a, b, c])
    (hA : isUpperAlphaCh a = true) (hB : isUpperAlphaCh b = true)
    (hC : isUpperAlphaCh c = true)
    (hy1 : 1000 ≤ y) (hy2 : y ≤ 9999) (hn : n ≤ 9999) :
    matchesRefPattern (complaintNumber code y n) = true := by
  obtain ⟨d1, d2, d3, d4, hy⟩ := list_len_four (natStr_length_four hy1 (by omega))
  have hq : n < 10 ^ 4 := by
    have h4 : (10 : Nat) ^ 4 = 10000 := by norm_num
    omega
  obtain ⟨e1, e2, e3, e4, hn4⟩ :=
    list_len_four (fmtPad_length (w := 4) (n := n) (by omega) hq)
  have hyd : ∀ x ∈ (natStr y).data, isDigitCh x = true := by
    intro x hx
    exact natDecimal_digits x (by simpa [natStr] using hx)
  have hnd : ∀ x ∈ (fmtPad 4 n).data, isDigitCh x = true := fmtPad_digits
  rw [hy] at hyd
  rw [hn4] at hnd
  have hdata : (complaintNumber code y n).data
      = [a, b, c, '-', d1, d2, d3, d4, '-', e1, e2, e3, e4] := by
    unfold complaintNumber
    simp only [String.data_append, hcode, hy, hn4,
      show ("-" : String).data = ['-'] from rfl]
    rfl
  unfold matchesRefPattern
  rw [hdata]
  simp [hA, hB, hC, hyd d1 (by simp), hyd d2 (by simp), hyd d3 (by simp),
    hyd d4 (by simp), hnd e1 (by simp), hnd e2 (by simp), hnd e3 (by simp),
    hnd e4 (by simp)]

/-! ## Caller phone resolution lemmas -/

theorem phoneMatchAt_shape {l : List Char} {m : String}
    (h : phoneMatchAt l = some m) : ∃ t, m.data = '+' :: '9' :: '1' :: t := by
  unfold phoneMatchAt at h
  split at h
  · split at h
    · simp only [Option.some.injEq] at h
      subst h
      exact ⟨_, rfl⟩
    · simp at h
  · simp at h

theorem findPhone91Aux_shape {l : List Char} {m : String}
    (h : findPhone91Aux l = some m) : ∃ t, m.data = '+' :: '9' :: '1' :: t := by
  induction l with
  | nil => simp [findPhone91Aux] at h
  | cons c rest ih =>
    rw [findPhone91Aux] at h
    cases hm : phoneMatchAt (c :: rest) with
    | some m2 =>
      rw [hm] at h
      simp only [Option.some.injEq] at h
      subst h
      exact phoneMatchAt_shape hm
    | none =>
      rw [hm] at h
      exact ih h

theorem findPhone91_ne_unknown {s m : String} (h : findPhone91 s = some m) :
    m ≠ "unknown" := by
  obtain ⟨t, ht⟩ := findPhone91Aux_shape h
  intro he
  subst he
  simp at ht

theorem resolve_regex_first {rn : String} {room : Option (List String)} {p : String}
    (hrn : rn ≠ "") (hp : findPhone91 rn = some p) :
    resolveCallerPhone (some rn) room = p := by
  unfold resolveCallerPhone
  simp only [hp, if_pos hrn]
  rw [if_neg (findPhone91_ne_unknown hp)]

theorem resolve_sip_second {orn : Option String} {ids : List String} {i : String}
    (hnone : ∀ rn, orn = some rn → rn = "" ∨ findPhone91 rn = none)
    (hfind : ids.find? (fun x => pyStartsWith x "sip_") = some i) :
    resolveCallerPhone orn (some ids) = pyDrop 4 i := by
  cases orn with
  | none => simp [resolveCallerPhone, hfind]
  | some rn =>
    rcases hnone rn rfl with h | h
    · subst h
      simp [resolveCallerPhone, hfind]
    · by_cases he : rn = ""
      · simp [resolveCallerPhone, he, hfind]
      · simp [resolveCallerPhone, he, h, hfind]

theorem resolve_sentinel {orn : Option String} {oroom : Option (List String)}
    (hnone : ∀ rn, orn = some rn → rn = "" ∨ findPhone91 rn = none)
    (hroom : ∀ ids, oroom = some ids →
      ids.find? (fun x => pyStartsWith x "sip_") = none) :
    resolveCallerPhone orn oroom = "unknown" := by
  cases oroom with
  | none =>
    cases orn with
    | none => simp [resolveCallerPhone]
    | some rn =>
      rcases hnone rn rfl with h | h
      · subst h
        simp [resolveCallerPhone]
      · by_cases he : rn = ""
        · simp [resolveCallerPhone, he]
        · simp [resolveCallerPhone, he, h]
  | some ids =>
    have hf := hroom ids rfl
    cases orn with
    | none => simp [resolveCallerPhone, hf]
    | some rn =>
      rcases hnone rn rfl with h | h
      · subst h
        simp [resolveCallerPhone, hf]
      · by_cases he : rn = ""
        · simp [resolveCallerPhone, he, hf]
        · simp [resolveCallerPhone, he, h, hf]

end MlaVoice

namespace MlaVoice

/-! ## Claim theorems -/

/-- Claim C1: the Step 2 sequence value of save_complaint_to_db is obtained
by reading the existing-complaint count and adding one, not from an atomic
counter.  Two concurrent invocations for the same tenant whose count reads
both complete before either insert observe the same count (here 5) and
return the same complaint number, so N concurrent allocations do not yield
N pairwise-distinct numbers.  Evaluation of the code at the failing
schedule: both runs return RAS-2025-0006. -/
theorem claim_C1 :
    (twoConcurrentSaves wCfg wTenant 5 wNow wArgs wArgsB).1
      = (twoConcurrentSaves wCfg wTenant 5 wNow wArgs wArgsB).2 ∧
    (twoConcurrentSaves wCfg wTenant 5 wNow wArgs wArgsB).1 = "RAS-2025-0006" := by
  constructor <;> decide

/-- Claim C2: for every configuration, environment of persistence-layer
responses (including environments in which every HTTP call raises or
returns a non-2xx status) and argument tuple, save_complaint_to_db returns
success equal to true and a nonempty complaint_number, so the caller never
needs a special-case branch. -/
theorem claim_C2 (cfg : SupabaseConfig) (env : SaveEnv) (a : SaveArgs) :
    (save_complaint_to_db cfg env a).1.success = true ∧
    (save_complaint_to_db cfg env a).1.complaint_number ≠ "" := by
  unfold save_complaint_to_db
  by_cases hcfg : configured cfg = true
  case neg =>
    rw [if_pos (by simpa using hcfg)]
    exact ⟨by trivial, RC_append_ne _⟩
  case pos =>
    rw [if_neg (by simp [hcfg])]
    cases htr : env.tenantResp with
    | error msg => simp only [htr]; exact ⟨by trivial, RC_append_ne _⟩
    | ok pr =>
      obtain ⟨ts, tb⟩ := pr
      cases tb with
      | nil => simp only [htr]; exact ⟨by trivial, RC_append_ne _⟩
      | cons t rest =>
        simp only [htr]
        by_cases hts : ts ≠ 200
        · rw [if_pos hts]
          exact ⟨by trivial, RC_append_ne _⟩
        · rw [if_neg hts]
          cases hcr : env.countResp with
          | error msg => simp only [hcr]; exact ⟨by trivial, RC_append_ne _⟩
          | ok pr2 =>
            obtain ⟨cs, rows⟩ := pr2
            simp only [hcr]
            cases hir : env.insertResp with
            | error msg => simp only [hir]; exact ⟨by trivial, RC_append_ne _⟩
            | ok pr3 =>
              obtain ⟨istat, ids, text⟩ := pr3
              simp only [hir]
              by_cases hist : istat = 200 ∨ istat = 201
              · rw [if_pos hist]
                exact ⟨by trivial, complaintNumber_ne _ _ _⟩
              · rw [if_neg hist]
                exact ⟨by trivial, RC_append_ne _⟩

/-- Claim C3: when the persistence path is reachable (tenant query answers
200 with a row, count query answers 200, insert answers 200 or 201), the
tenant constituency starts with three ASCII letters, the count plus one is
at most 9999 and the year has four digits, the allocated complaint number
equals the uppercased first three characters of the constituency, a dash,
the current year, a dash and the count plus one padded to four digits, and
it matches the shape of three uppercase letters, four digits and four
digits separated by dashes. -/
theorem claim_C3 (cfg : SupabaseConfig) (env : SaveEnv) (a : SaveArgs)
    (t : TenantRow) (rest : List TenantRow) (con : String)
    (c1 c2 c3 : Char) (tl : List Char) (rows istat : Nat)
    (ids : List String) (text : String)
    (hcfg : configured cfg = true)
    (htr : env.tenantResp = .ok (200, t :: rest))
    (hcon : t.constituency = some con)
    (hdata : con.data = c1 :: c2 :: c3 :: tl)
    (ha1 : isAsciiAlphaCh c1 = true) (ha2 : isAsciiAlphaCh c2 = true)
    (ha3 : isAsciiAlphaCh c3 = true)
    (hcr : env.countResp = .ok (200, rows))
    (hrows : rows + 1 ≤ 9999)
    (hy1 : 1000 ≤ env.nowYear.year) (hy2 : env.nowYear.year ≤ 9999)
    (hir : env.insertResp = .ok (istat, ids, text))
    (hist : istat = 200 ∨ istat = 201) :
    (save_complaint_to_db cfg env a).1.complaint_number
      = pyUpper (pyTake 3 con) ++ "-" ++ natStr env.nowYear.year ++ "-" ++
          fmtPad 4 (rows + 1) ∧
    matchesRefPattern ((save_complaint_to_db cfg env a).1.complaint_number) = true := by
  have hnum := (save_happy_number (a := a) hcfg htr hcr hir hist).1
  rw [hcon] at hnum
  simp only [Option.getD_some] at hnum
  have htake : (pyTake 3 con).data = [c1, c2, c3] := by
    simp [pyTake, hdata]
  have hupper : (pyUpper (pyTake 3 con)).data
      = [pyUpperChar c1, pyUpperChar c2, pyUpperChar c3] := by
    simp [pyUpper, htake]
  constructor
  · rw [hnum]; rfl
  · rw [hnum]
    exact matchesRefPattern_complaintNumber hupper
      (isUpperAlphaCh_pyUpperChar ha1) (isUpperAlphaCh_pyUpperChar ha2)
      (isUpperAlphaCh_pyUpperChar ha3) hy1 hy2 (by omega)

/-- Witness for claim C3: the fully successful environment wEnvOk with five
existing complaints and the Rasipuram tenant yields the number RAS-2025-0006
in the required shape. -/
theorem claim_C3_witness :
    (save_complaint_to_db wCfg wEnvOk wArgs).1.complaint_number
      = pyUpper (pyTake 3 "Rasipuram") ++ "-" ++ natStr 2025 ++ "-" ++ fmtPad 4 6 ∧
    matchesRefPattern ((save_complaint_to_db wCfg wEnvOk wArgs).1.complaint_number) = true :=
  claim_C3 wCfg wEnvOk wArgs wTenant [] "Rasipuram" 'R' 'a' 's' "ipuram".data
    5 201 ["row-1"] "" (by decide) rfl rfl rfl (by decide) (by decide) (by decide)
    rfl (by decide) (by decide) (by decide) rfl (Or.inr rfl)

/-- Claim C4: normalize_issue_type is total over the seven canonical
categories, idempotent, insensitive to ASCII case and to surrounding
whitespace, and maps pothole and the Tamil word for road to road and
unmapped phrases such as noise complaint to other. -/
theorem claim_C4 :
    (∀ s : String, normalize_issue_type s ∈ canonicalCategories) ∧
    (∀ s : String, normalize_issue_type (normalize_issue_type s) = normalize_issue_type s) ∧
    (∀ s : String, normalize_issue_type (pyLower s) = normalize_issue_type s) ∧
    (∀ s : String, normalize_issue_type (pyStrip s) = normalize_issue_type s) ∧
    normalize_issue_type "pothole" = "road" ∧
    normalize_issue_type "சாலை" = "road" ∧
    normalize_issue_type "noise complaint" = "other" := by
  refine ⟨normalize_issue_type_total, normalize_issue_type_idem,
    normalize_issue_type_lower, normalize_issue_type_strip, ?_, ?_, ?_⟩ <;> decide

end MlaVoice

namespace MlaVoice

/-- Counterexample to claim C5 as stated: with a room name embedding
+919999999999 and a remote participant tagged sip_+918888888888, the code
(agent_v3.py Step 5) resolves the room-name match +919999999999, while the
ordering stated by the claim (SIP identity first) would resolve
+918888888888. -/
theorem claim_C5_counterexample :
    resolveCallerPhone (some "call-_+919999999999_x") (some ["sip_+918888888888"])
      = "+919999999999" ∧
    specOrderResolve (some "call-_+919999999999_x") (some ["sip_+918888888888"])
      = "+918888888888" ∧
    ("+919999999999" : String) ≠ "+918888888888" := by
  refine ⟨by decide, by decide, by decide⟩

/-- Claim C5 as amended: caller-phone resolution applies first-match-wins in
the order (1) leftmost match of +91 followed by ten digits over the room
name, (2) identity of the first remote participant starting with the four
characters of the SIP tag, with that tag stripped, (3) the sentinel
unknown; in particular a session name containing +919876543210 with no SIP
participant resolves to that number, and with neither source the result is
unknown. -/
theorem claim_C5 :
    (∀ (rn : String) (room : Option (List String)) (p : String),
      rn ≠ "" → findPhone91 rn = some p → resolveCallerPhone (some rn) room = p) ∧
    (∀ (orn : Option String) (ids : List String) (i : String),
      (∀ rn, orn = some rn → rn = "" ∨ findPhone91 rn = none) →
      ids.find? (fun x => pyStartsWith x "sip_") = some i →
      resolveCallerPhone orn (some ids) = pyDrop 4 i) ∧
    (∀ (orn : Option String) (oroom : Option (List String)),
      (∀ rn, orn = some rn → rn = "" ∨ findPhone91 rn = none) →
      (∀ ids, oroom = some ids →
        ids.find? (fun x => pyStartsWith x "sip_") = none) →
      resolveCallerPhone orn oroom = "unknown") ∧
    resolveCallerPhone (some "call-_+919876543210_VeqLvMNp9z5R") (some [])
      = "+919876543210" ∧
    resolveCallerPhone none none = "unknown" := by
  refine ⟨?_, ?_, ?_, by decide, by decide⟩
  · intro rn room p h1 h2
    exact resolve_regex_first h1 h2
  · intro orn ids i h1 h2
    exact resolve_sip_second h1 h2
  · intro orn oroom h1 h2
    exact resolve_sentinel h1 h2

/-- Witness for claim C5: the regex source fires on a concrete room name,
the SIP source fires when the room name has no match, and the sentinel is
returned with neither source. -/
theorem claim_C5_witness :
    resolveCallerPhone (some "call-_+919876543210_VeqLvMNp9z5R")
      (some ["sip_+918888888888"]) = "+919876543210" ∧
    resolveCallerPhone (some "call-abc") (some ["observer", "sip_+916369675744"])
      = "+916369675744" ∧
    resolveCallerPhone (some "call-abc") (some ["observer"]) = "unknown" := by
  refine ⟨?_, ?_, ?_⟩
  · exact claim_C5.1 "call-_+919876543210_VeqLvMNp9z5R" (some ["sip_+918888888888"])
      "+919876543210" (by decide) (by decide)
  · exact claim_C5.2.1 (some "call-abc") ["observer", "sip_+916369675744"]
      "sip_+916369675744" (by intro rn hrn; right; injection hrn with hrn; rw [← hrn]; decide)
      (by decide)
  · exact claim_C5.2.2.1 (some "call-abc") (some ["observer"])
      (by intro rn hrn; right; injection hrn with hrn; rw [← hrn]; decide)
      (by intro ids hids; injection hids with hids; rw [← hids]; decide)

/-- Counterexample to claim C6 as stated: the fallback reference uses only
the time of day at second resolution, so two fallback allocations at
distinct times — here noon of January 1 and noon of January 2, 2025 — yield
the same complaint number RC120000. -/
theorem claim_C6_counterexample :
    (⟨2025, 1, 1, 12, 0, 0⟩ : PyDateTime) ≠ (⟨2025, 1, 2, 12, 0, 0⟩ : PyDateTime) ∧
    (save_complaint_to_db wCfg (c6envAt ⟨2025, 1, 1, 12, 0, 0⟩) wArgs).1.complaint_number
      = (save_complaint_to_db wCfg (c6envAt ⟨2025, 1, 2, 12, 0, 0⟩) wArgs).1.complaint_number ∧
    (save_complaint_to_db wCfg (c6envAt ⟨2025, 1, 1, 12, 0, 0⟩) wArgs).1.complaint_number
      = "RC120000" := by
  refine ⟨by decide, by decide, by decide⟩

/-- Claim C6 as amended: every fallback reference number — allocated when no
tenant resolves, when the tenant query raises, or when the insert is
rejected — is the two characters RC followed by the hour, minute and second
of the current time, each padded to two digits, and is still returned to
the caller with success; two fallback allocations whose timestamps differ
in hour, minute or second yield distinct numbers (allocations sharing the
time of day, for example on different days, may collide). -/
theorem claim_C6 :
    (∀ (cfg : SupabaseConfig) (env : SaveEnv) (a : SaveArgs) (ts : Nat),
      configured cfg = true → env.tenantResp = .ok (ts, []) →
      (save_complaint_to_db cfg env a).1.success = true ∧
      (save_complaint_to_db cfg env a).1.complaint_number
        = "RC" ++ strftimeHMS env.nowNoTenant) ∧
    (∀ (cfg : SupabaseConfig) (env : SaveEnv) (a : SaveArgs) (msg : String),
      configured cfg = true → env.tenantResp = .error msg →
      (save_complaint_to_db cfg env a).1.success = true ∧
      (save_complaint_to_db cfg env a).1.complaint_number
        = "RC" ++ strftimeHMS env.nowExc) ∧
    (∀ (cfg : SupabaseConfig) (env : SaveEnv) (a : SaveArgs)
        (t : TenantRow) (rest : List TenantRow) (rows istat : Nat)
        (ids : List String) (text : String),
      configured cfg = true → env.tenantResp = .ok (200, t :: rest) →
      env.countResp = .ok (200, rows) → env.insertResp = .ok (istat, ids, text) →
      ¬(istat = 200 ∨ istat = 201) →
      (save_complaint_to_db cfg env a).1.success = true ∧
      (save_complaint_to_db cfg env a).1.complaint_number
        = "RC" ++ strftimeHMS env.nowPostFail) ∧
    (∀ t1 t2 : PyDateTime,
      t1.hour < 24 → t1.minute < 60 → t1.second < 60 →
      t2.hour < 24 → t2.minute < 60 → t2.second < 60 →
      ¬(t1.hour = t2.hour ∧ t1.minute = t2.minute ∧ t1.second = t2.second) →
      ("RC" ++ strftimeHMS t1) ≠ ("RC" ++ strftimeHMS t2)) := by
  refine ⟨?_, ?_, ?_, ?_⟩
  · intro cfg env a ts hcfg htr
    obtain ⟨h1, h2, h3⟩ := save_noTenant (a := a) hcfg htr
    exact ⟨h1, h3⟩
  · intro cfg env a msg hcfg htr
    obtain ⟨h1, h2, h3⟩ := save_exception (a := a) hcfg htr
    exact ⟨h1, h2⟩
  · intro cfg env a t rest rows istat ids text hcfg htr hcr hir hist
    exact save_postFail (a := a) hcfg htr hcr hir hist
  · intro t1 t2 h1 h2 h3 h4 h5 h6 hne heq
    exact hne (strftimeHMS_inj h1 h2 h3 h4 h5 h6 (RC_append_inj heq))

/-- Witness for claim C6: the empty-tenant environment at the sample time
returns the fallback reference with success, and two fallback references
one second apart differ. -/
theorem claim_C6_witness :
    ((save_complaint_to_db wCfg (c6envAt wNow) wArgs).1.success = true ∧
      (save_complaint_to_db wCfg (c6envAt wNow) wArgs).1.complaint_number
        = "RC" ++ strftimeHMS wNow) ∧
    ("RC" ++ strftimeHMS ⟨2025, 1, 1, 12, 0, 1⟩)
      ≠ ("RC" ++ strftimeHMS ⟨2025, 1, 1, 12, 0, 2⟩) := by
  constructor
  · exact claim_C6.1 wCfg (c6envAt wNow) wArgs 200 (by decide) rfl
  · exact claim_C6.2.2.2 ⟨2025, 1, 1, 12, 0, 1⟩ ⟨2025, 1, 1, 12, 0, 2⟩
      (by decide) (by decide) (by decide) (by decide) (by decide) (by decide)
      (by decide)

end MlaVoice

namespace MlaVoice

/-- Claim C7: for every task and every sequence of accepted structured
answers, the completion call transitions to the terminal Completed state at
most once — any completion that succeeds leaves a state on which a second
completion fails with InvalidState, and running two or more accepted
answers always ends in the InvalidState error. -/
theorem claim_C7 :
    (∀ (α : Type) (s : TaskState α) (r : α) (s2 : TaskState α),
      s.complete r = .ok s2 → ∀ r2 : α, s2.complete r2 = .error .invalidState) ∧
    (∀ (α : Type) (s : TaskState α) (r1 r2 : α) (rest : List α),
      runAnswers s (r1 :: r2 :: rest) = .error .invalidState) := by
  constructor
  · intro α s r s2 h r2
    cases s with
    | completed x => simp [TaskState.complete] at h
    | created =>
      simp only [TaskState.complete] at h
      injection h with h
      subst h
      rfl
    | awaitingAnswer =>
      simp only [TaskState.complete] at h
      injection h with h
      subst h
      rfl
  · intro α s r1 r2 rest
    cases s with
    | completed x => rfl
    | created => rfl
    | awaitingAnswer => rfl

/-- Witness for claim C7: completing a fresh name-collection task succeeds
once and a second completion on the resulting state fails with
InvalidState. -/
theorem claim_C7_witness :
    TaskState.complete TaskState.created (⟨"Lakshmi"⟩ : CollectedName)
      = .ok (.completed ⟨"Lakshmi"⟩) ∧
    TaskState.complete (TaskState.completed (⟨"Lakshmi"⟩ : CollectedName)) ⟨"Muthu"⟩
      = .error .invalidState := by
  constructor
  · rfl
  · exact claim_C7.1 CollectedName TaskState.created ⟨"Lakshmi"⟩
      (.completed ⟨"Lakshmi"⟩) rfl ⟨"Muthu"⟩

/-- Claim C8: the location field of the record posted by
save_complaint_to_db is the string Ward w comma space l when the collected
ward w is nonempty, and the location argument l verbatim when the ward is
empty. -/
theorem claim_C8 (cfg : SupabaseConfig) (env : SaveEnv) (a : SaveArgs)
    (rec : ComplaintRecord)
    (h : (save_complaint_to_db cfg env a).2.posted = some rec) :
    (a.ward ≠ "" → rec.location = "Ward " ++ a.ward ++ ", " ++ a.location) ∧
    (a.ward = "" → rec.location = a.location) := by
  have hf := (save_posted_fields h).1
  constructor
  · intro hw
    rw [hf, if_pos hw]
  · intro hw
    rw [hf, if_neg (by simp [hw])]

/-- Witness for claim C8: the successful run for wArgs posts wRec, whose
location carries the Ward 12 composite for ward 12. -/
theorem claim_C8_witness :
    (save_complaint_to_db wCfg wEnvOk wArgs).2.posted = some wRec ∧
    wRec.location = "Ward " ++ wArgs.ward ++ ", " ++ wArgs.location := by
  constructor
  · decide
  · exact (claim_C8 wCfg wEnvOk wArgs wRec (by decide)).1 (by decide)

/-- Claim C9: the record posted by save_complaint_to_db stores landmark,
transcript and audio_url as null when the corresponding argument is the
empty string, and call_duration_seconds as null when the given duration is
not positive. -/
theorem claim_C9 (cfg : SupabaseConfig) (env : SaveEnv) (a : SaveArgs)
    (rec : ComplaintRecord)
    (h : (save_complaint_to_db cfg env a).2.posted = some rec) :
    (a.landmark = "" → rec.landmark = none) ∧
    (a.transcript = "" → rec.transcript = none) ∧
    (a.audio_url = "" → rec.audio_url = none) ∧
    (a.call_duration_seconds ≤ 0 → rec.call_duration_seconds = none) := by
  have hf := save_posted_fields h
  refine ⟨?_, ?_, ?_, ?_⟩
  · intro hl
    rw [hf.2.1, if_neg (by simp [hl])]
  · intro ht
    rw [hf.2.2.1, if_neg (by simp [ht])]
  · intro hau
    rw [hf.2.2.2.2.1, if_neg (by simp [hau])]
  · intro hd
    rw [hf.2.2.2.1, if_neg (by omega)]

/-- Witness for claim C9: wArgs leaves landmark, transcript and audio_url
empty and the duration at zero, and the posted record wRec stores all four
as null. -/
theorem claim_C9_witness :
    (save_complaint_to_db wCfg wEnvOk wArgs).2.posted = some wRec ∧
    wRec.landmark = none ∧ wRec.transcript = none ∧ wRec.audio_url = none ∧
    wRec.call_duration_seconds = none := by
  have h := claim_C9 wCfg wEnvOk wArgs wRec (by decide)
  exact ⟨by decide, h.1 rfl, h.2.1 rfl, h.2.2.1 rfl, h.2.2.2 (by decide)⟩

/-- Claim C10: with the credentials unset, save_complaint_to_db issues no
HTTP request and returns success with the local marker and a reference of
RC followed by the fourteen digits of the full timestamp,

while log_call under the same condition issues no request, posts nothing
and reports failure. -/
theorem claim_C10 (cfg : SupabaseConfig) (env : SaveEnv) (envL : LogEnv)
    (a : SaveArgs) (aL : LogArgs)
    (hcfg : configured cfg = false)
    (hy : env.nowLocal.year < 10000) (hmo : env.nowLocal.month < 100)
    (hd : env.nowLocal.day < 100) (hh : env.nowLocal.hour < 100)
    (hmi : env.nowLocal.minute < 100) (hs : env.nowLocal.second < 100) :
    (save_complaint_to_db cfg env a).1.success = true ∧
    (save_complaint_to_db cfg env a).1.localFlag = true ∧
    (save_complaint_to_db cfg env a).1.complaint_number
      = "RC" ++ strftimeYmdHMS env.nowLocal ∧
    (strftimeYmdHMS env.nowLocal).data.length = 14 ∧
    (∀ c ∈ (strftimeYmdHMS env.nowLocal).data, isDigitCh c = true) ∧
    (save_complaint_to_db cfg env a).2.requests = [] ∧
    (save_complaint_to_db cfg env a).2.posted = none ∧
    (log_call cfg envL aL).1.success = false ∧
    (log_call cfg envL aL).1.error = some "Supabase not configured" ∧
    (log_call cfg envL aL).2.requests = [] ∧
    (log_call cfg envL aL).2.posted = none := by
  have hsave : save_complaint_to_db cfg env a
      = ({ success := true, complaint_number := "RC" ++ strftimeYmdHMS env.nowLocal,
           complaint_id := some "", localFlag := true }, { requests := [] }) := by
    unfold save_complaint_to_db
    rw [if_pos (by simp [hcfg])]
  have hlog : log_call cfg envL aL
      = ({ success := false, error := some "Supabase not configured" },
         { requests := [] }) := by
    unfold log_call
    rw [if_pos (by simp [hcfg])]
  have h4 : (10 : Nat) ^ 4 = 10000 := by norm_num
  have h2 : (10 : Nat) ^ 2 = 100 := by norm_num
  have hlen : (strftimeYmdHMS env.nowLocal).data.length = 14 := by
    unfold strftimeYmdHMS
    simp only [String.data_append, List.length_append]
    rw [fmtPad_length (by omega) (by omega), fmtPad_length (by omega) (by omega),
        fmtPad_length (by omega) (by omega), fmtPad_length (by omega) (by omega),
        fmtPad_length (by omega) (by omega), fmtPad_length (by omega) (by omega)]
  have hdig : ∀ c ∈ (strftimeYmdHMS env.nowLocal).data, isDigitCh c = true := by
    intro c hc
    unfold strftimeYmdHMS at hc
    simp only [String.data_append, List.mem_append] at hc
    rcases hc with ((((hc | hc) | hc) | hc) | hc) | hc <;> exact fmtPad_digits c hc
  rw [hsave, hlog]
  exact ⟨rfl, rfl, rfl, hlen, hdig, rfl, rfl, rfl, rfl, rfl, rfl⟩

/-- Witness for claim C10: with both credentials unset, the save at the
sample time succeeds with the local marker and the RC timestamp reference
while the call log write fails, and neither issues a request. -/
theorem claim_C10_witness :
    configured wCfgNone = false ∧
    (save_complaint_to_db wCfgNone (c6envAt wNow) wArgs).1.success = true ∧
    (save_complaint_to_db wCfgNone (c6envAt wNow) wArgs).1.localFlag = true ∧
    (save_complaint_to_db wCfgNone (c6envAt wNow) wArgs).1.complaint_number
      = "RC" ++ strftimeYmdHMS wNow ∧
    (save_complaint_to_db wCfgNone (c6envAt wNow) wArgs).2.requests = [] ∧
    (log_call wCfgNone wLogEnv wLogArgs).1.success = false := by
  have h := claim_C10 wCfgNone (c6envAt wNow) wLogEnv wArgs wLogArgs
    (by decide) (by decide) (by decide) (by decide) (by decide) (by decide) (by decide)
  exact ⟨by decide, h.1, h.2.1, h.2.2.1, h.2.2.2.2.2.1, h.2.2.2.2.2.2.2.1⟩

end MlaVoice
